import Mathlib

/-!
Shallow embedding of `crates/router/src/connector/globepay/transformers.rs`
(the Globepay connector of the hyperswitch payment orchestrator) and proofs
about its transformation contracts.

Machine integers (`i64` amounts) are modelled as `Int`; the connector only
copies them, never computes with them, so no overflow modelling is needed.
`url::Url` values are opaque to the transformer and are modelled as `String`.
Serde/JSON values produced by `encode_to_value` are modelled by a small
`Json` inductive.
-/

namespace Globepay

/-- Orchestrator currency enumeration (`enums::Currency`); the connector never
inspects it, only copies it, so a representative subset of variants is kept. -/
inductive Currency where
  | CNY
  | USD
  | EUR
  | GBP
  | INR
  | JPY
  deriving DecidableEq, Repr

/-- Orchestrator attempt-status enumeration (`enums::AttemptStatus`),
a representative subset of the real variant set containing every variant the
connector can produce plus others. -/
inductive AttemptStatus where
  | Started
  | AuthenticationFailed
  | AuthenticationPending
  | AuthenticationSuccessful
  | Authorized
  | AuthorizationFailed
  | Charged
  | Authorizing
  | Voided
  | Pending
  | Failure
  | PaymentMethodAwaited
  deriving DecidableEq, Repr

/-- Orchestrator refund-status enumeration (`enums::RefundStatus`). -/
inductive RefundStatusEnum where
  | Failure
  | ManualReview
  | Pending
  | Success
  | TransactionFailure
  deriving DecidableEq, Repr

/-- Wallet payment-method data (`api::WalletData`): the two variants the
connector supports plus representatives of the variants its `_` arm rejects.
Payloads are irrelevant to the connector and are dropped. -/
inductive WalletData where
  | AliPay
  | WeChatPay
  | ApplePay
  | GooglePay
  | PaypalRedirect
  | SamsungPay
  deriving DecidableEq, Repr

/-- Payment-method data (`api::PaymentMethodData`): the `Wallet` variant the
connector matches on plus representatives of the variants its `_` arm
rejects. -/
inductive PaymentMethodData where
  | Wallet (data : WalletData)
  | Card
  | PayLater
  | BankRedirect
  | Crypto
  | Upi
  deriving DecidableEq, Repr

/-- Connector error taxonomy (`errors::ConnectorError`), restricted to the
variants this module produces. -/
inductive ConnectorError where
  | NotImplemented (message : String)
  | MissingRequiredField (field_name : String)
  | FailedToObtainAuthType
  | ResponseHandlingFailed
  deriving DecidableEq, Repr

/-- Masked secret string (`masking::Secret<String>`). -/
structure Secret where
  value : String
  deriving DecidableEq, Repr

/-- Generic connector auth configuration (`types::ConnectorAuthType`). -/
inductive ConnectorAuthType where
  | HeaderKey (api_key : String)
  | BodyKey (api_key : String) (key1 : String)
  | SignatureKey (api_key : String) (key1 : String) (api_secret : String)
  | MultiAuthKey (api_key : String) (key1 : String) (api_secret : String) (key2 : String)
  | NoKey
  deriving DecidableEq, Repr

/-- Minimal JSON value model for `serde_json::Value` as produced by
`Encode::encode_to_value`. -/
inductive Json where
  | str (s : String)
  | obj (fields : List (String × Json))

/-- Payment channel on the Globepay wire (`GlobepayChannel`). -/
inductive GlobepayChannel where
  | Alipay
  | Wechat
  deriving DecidableEq, Repr

/-- Outbound authorize request body (`GlobepayPaymentsRequest`). -/
structure GlobepayPaymentsRequest where
  price : Int
  description : String
  currency : Currency
  channel : GlobepayChannel
  deriving DecidableEq, Repr

/-- Fields of `PaymentsAuthorizeData` the connector reads. -/
structure PaymentsAuthorizeData where
  payment_method_data : PaymentMethodData
  amount : Int
  currency : Currency
  deriving DecidableEq, Repr

/-- Fields of `types::PaymentsAuthorizeRouterData` the request builder reads. -/
structure PaymentsAuthorizeRouterData where
  request : PaymentsAuthorizeData
  description : Option String
  deriving DecidableEq, Repr

/-- Request builder
`TryFrom<&types::PaymentsAuthorizeRouterData> for GlobepayPaymentsRequest`:
resolve the channel from the payment-method data, then require a description,
then copy amount and currency verbatim. -/
def GlobepayPaymentsRequest.tryFrom (item : PaymentsAuthorizeRouterData) :
    Except ConnectorError GlobepayPaymentsRequest := do
  let channel : GlobepayChannel ←
    match item.request.payment_method_data with
    | .Wallet wallet_data =>
      match wallet_data with
      | .AliPay => pure GlobepayChannel.Alipay
      | .WeChatPay => pure GlobepayChannel.Wechat
      | _ => throw (ConnectorError.NotImplemented "Payment method")
    | _ => throw (ConnectorError.NotImplemented "Payment method")
  let description ←
    match item.description with
    | some d => pure d
    | none => throw (ConnectorError.MissingRequiredField "description")
  pure { price := item.request.amount
         description := description
         currency := item.request.currency
         channel := channel }

/-- Extracted Globepay credentials (`GlobepayAuthType`). -/
structure GlobepayAuthType where
  partner_code : Secret
  credential_code : Secret
  deriving DecidableEq, Repr

/-- Credential extractor
`TryFrom<&types::ConnectorAuthType> for GlobepayAuthType`. -/
def GlobepayAuthType.tryFrom (auth_type : ConnectorAuthType) :
    Except ConnectorError GlobepayAuthType :=
  match auth_type with
  | .BodyKey api_key key1 =>
    .ok { partner_code := ⟨api_key⟩, credential_code := ⟨key1⟩ }
  | _ => .error ConnectorError.FailedToObtainAuthType

/-- Gateway result code of a creation response (`GlobepayPaymentStatus`). -/
inductive GlobepayPaymentStatus where
  | Success
  | Exists
  deriving DecidableEq, Repr

/-- Status mapping `From<GlobepayPaymentStatus> for enums::AttemptStatus`:
the connector only has redirection flows, so `Success` maps to
`AuthenticationPending`. -/
def attemptStatusOfPaymentStatus : GlobepayPaymentStatus → AttemptStatus
  | .Success => .AuthenticationPending
  | .Exists => .Failure

/-- Gateway-level return code (`GlobepayReturnCode`). -/
inductive GlobepayReturnCode where
  | Success
  | OrderNotExist
  | OrderMismatch
  | Systemerror
  | InvalidShortId
  | SignTimeout
  | InvalidSign
  | ParamInvalid
  | NotPermitted
  | InvalidChannel
  | DuplicateOrderId
  deriving DecidableEq, Repr

/-- Rendering of a return code by the derived `strum::Display` implementation:
with no `strum(serialize_all)` attribute on the enum, `to_string()` yields the
variant identifier verbatim (the serde `SCREAMING_SNAKE_CASE` rename applies
only to deserialization, not to `Display`). -/
def GlobepayReturnCode.displayString : GlobepayReturnCode → String
  | .Success => "Success"
  | .OrderNotExist => "OrderNotExist"
  | .OrderMismatch => "OrderMismatch"
  | .Systemerror => "Systemerror"
  | .InvalidShortId => "InvalidShortId"
  | .SignTimeout => "SignTimeout"
  | .InvalidSign => "InvalidSign"
  | .ParamInvalid => "ParamInvalid"
  | .NotPermitted => "NotPermitted"
  | .InvalidChannel => "InvalidChannel"
  | .DuplicateOrderId => "DuplicateOrderId"

/-- Connector metadata attached to a successful creation
(`GlobepayConnectorMetadata`). -/
structure GlobepayConnectorMetadata where
  image_data_url : String

/-- Serde serialization of `GlobepayConnectorMetadata` as performed by
`Encode::encode_to_value`; it cannot fail for this struct. -/
def GlobepayConnectorMetadata.encodeToValue (m : GlobepayConnectorMetadata) : Json :=
  Json.obj [("image_data_url", Json.str m.image_data_url)]

/-- Raw gateway creation response (`GlobepayPaymentsResponse`). -/
structure GlobepayPaymentsResponse where
  result_code : Option GlobepayPaymentStatus
  order_id : Option String
  qrcode_img : Option String
  return_code : GlobepayReturnCode
  return_msg : Option String

/-- Normalized error response (`types::ErrorResponse`). -/
structure ErrorResponse where
  code : String
  message : String
  reason : Option String
  status_code : Nat

/-- Transaction resource id (`types::ResponseId`). -/
inductive ResponseId where
  | ConnectorTransactionId (id : String)
  | EncodedData (data : String)
  | NoResponseId

/-- Unified payments response data (`types::PaymentsResponseData`), restricted
to the `TransactionResponse` variant this connector produces. -/
inductive PaymentsResponseData where
  | TransactionResponse
      (resource_id : ResponseId)
      (redirection_data : Option Unit)
      (mandate_reference : Option Unit)
      (connector_metadata : Option Json)
      (network_txn_id : Option String)

/-- Orchestrator router data (`types::RouterData`): the `status` and
`response` fields the connector writes, with all remaining fields collapsed
into an abstract `data` component copied by the `..item.data` struct update. -/
structure RouterData (α : Type) where
  status : AttemptStatus
  response : Except ErrorResponse PaymentsResponseData
  data : α

/-- Wrapper handed to response parsers (`types::ResponseRouterData`). -/
structure ResponseRouterData (R : Type) (α : Type) where
  response : R
  data : RouterData α
  http_code : Nat

/-- Creation-response parser
`TryFrom<ResponseRouterData<F, GlobepayPaymentsResponse, T, PaymentsResponseData>>`:
if the return code is `Success`, require the QR image URL (building metadata),
the result code and the order id, failing each with `ResponseHandlingFailed`;
otherwise force status `Failure` and normalize into an `ErrorResponse` (the
gateway returns HTTP 200 even on business failure). -/
def paymentsResponseTryFrom {α : Type}
    (item : ResponseRouterData GlobepayPaymentsResponse α) :
    Except ConnectorError (RouterData α) :=
  if item.response.return_code = GlobepayReturnCode.Success then do
    let qr ←
      match item.response.qrcode_img with
      | some u => pure u
      | none => throw ConnectorError.ResponseHandlingFailed
    let globepay_metadata : GlobepayConnectorMetadata := { image_data_url := qr }
    let connector_metadata : Option Json := some globepay_metadata.encodeToValue
    let globepay_status ←
      match item.response.result_code with
      | some s => pure s
      | none => throw ConnectorError.ResponseHandlingFailed
    let order_id ←
      match item.response.order_id with
      | some o => pure o
      | none => throw ConnectorError.ResponseHandlingFailed
    pure { status := attemptStatusOfPaymentStatus globepay_status
           response := .ok (PaymentsResponseData.TransactionResponse
             (ResponseId.ConnectorTransactionId order_id)
             none none connector_metadata none)
           data := item.data.data }
  else
    .ok { status := AttemptStatus.Failure
          response := .error
            { code := item.response.return_code.displayString
              message := item.response.return_code.displayString
              reason := item.response.return_msg
              status_code := item.http_code }
          data := item.data.data }

/-- Gateway payment status in sync responses (`GlobepayPaymentPsyncStatus`). -/
inductive GlobepayPaymentPsyncStatus where
  | Paying
  | CreateFail
  | Closed
  | PayFail
  | PaySuccess
  deriving DecidableEq, Repr

/-- Raw gateway sync response (`GlobepaySyncResponse`). -/
structure GlobepaySyncResponse where
  result_code : Option GlobepayPaymentPsyncStatus
  order_id : Option String
  return_code : GlobepayReturnCode
  return_msg : Option String

/-- Status mapping `From<GlobepayPaymentPsyncStatus> for enums::AttemptStatus`. -/
def attemptStatusOfPsyncStatus : GlobepayPaymentPsyncStatus → AttemptStatus
  | .PaySuccess => .Charged
  | .PayFail => .Failure
  | .CreateFail => .Failure
  | .Closed => .Failure
  | .Paying => .AuthenticationPending

/-- Sync-response parser
`TryFrom<ResponseRouterData<F, GlobepaySyncResponse, T, PaymentsResponseData>>`:
same two-tier contract as the creation parser, without metadata. -/
def syncResponseTryFrom {α : Type}
    (item : ResponseRouterData GlobepaySyncResponse α) :
    Except ConnectorError (RouterData α) :=
  if item.response.return_code = GlobepayReturnCode.Success then do
    let globepay_status ←
      match item.response.result_code with
      | some s => pure s
      | none => throw ConnectorError.ResponseHandlingFailed
    let globepay_id ←
      match item.response.order_id with
      | some o => pure o
      | none => throw ConnectorError.ResponseHandlingFailed
    pure { status := attemptStatusOfPsyncStatus globepay_status
           response := .ok (PaymentsResponseData.TransactionResponse
             (ResponseId.ConnectorTransactionId globepay_id)
             none none none none)
           data := item.data.data }
  else
    .ok { status := AttemptStatus.Failure
          response := .error
            { code := item.response.return_code.displayString
              message := item.response.return_code.displayString
              reason := item.response.return_msg
              status_code := item.http_code }
          data := item.data.data }

/-- Outbound refund request body (`GlobepayRefundRequest`). -/
structure GlobepayRefundRequest where
  amount : Int
  deriving DecidableEq, Repr

/-- Fields of `RefundsData` the refund builder reads. -/
structure RefundsData where
  refund_amount : Int
  deriving DecidableEq, Repr

/-- Unified refunds response data (`types::RefundsResponseData`). -/
structure RefundsResponseData where
  connector_refund_id : String
  refund_status : RefundStatusEnum
  deriving DecidableEq, Repr

/-- Orchestrator refunds router data (`types::RefundsRouterData`): the
`request` field the builder reads and the `response` field the parsers write,
with the remaining fields collapsed into `data`. -/
structure RefundsRouterData (α : Type) where
  request : RefundsData
  response : Except ErrorResponse RefundsResponseData
  data : α

/-- Refund request builder
`TryFrom<&types::RefundsRouterData<F>> for GlobepayRefundRequest`: copies the
refund amount verbatim and cannot fail. -/
def GlobepayRefundRequest.tryFrom {α : Type} (item : RefundsRouterData α) :
    Except ConnectorError GlobepayRefundRequest :=
  .ok { amount := item.request.refund_amount }

/-- Gateway refund status (`RefundStatus`); `Processing` is the serde
default. -/
inductive RefundStatus where
  | Succeeded
  | Failed
  | Processing
  deriving DecidableEq, Repr

/-- Status mapping `From<RefundStatus> for enums::RefundStatus`. -/
def refundStatusEnumOfRefundStatus : RefundStatus → RefundStatusEnum
  | .Succeeded => .Success
  | .Failed => .Failure
  | .Processing => .Pending

/-- Raw gateway refund response (`RefundResponse`): a flat id/status payload
with no return-code envelope. -/
structure RefundResponse where
  id : String
  status : RefundStatus
  deriving DecidableEq, Repr

/-- Wrapper handed to refund response parsers
(`types::RefundsResponseRouterData`). -/
structure RefundsResponseRouterData (α : Type) where
  response : RefundResponse
  data : RefundsRouterData α
  http_code : Nat

/-- Refund-creation response parser
`TryFrom<RefundsResponseRouterData<api::Execute, RefundResponse>>`. -/
def refundExecuteTryFrom {α : Type} (item : RefundsResponseRouterData α) :
    Except ConnectorError (RefundsRouterData α) :=
  .ok { request := item.data.request
        response := .ok
          { connector_refund_id := item.response.id
            refund_status := refundStatusEnumOfRefundStatus item.response.status }
        data := item.data.data }

/-- Refund-sync response parser
`TryFrom<RefundsResponseRouterData<api::RSync, RefundResponse>>`; body
identical to the creation parser. -/
def refundRSyncTryFrom {α : Type} (item : RefundsResponseRouterData α) :
    Except ConnectorError (RefundsRouterData α) :=
  .ok { request := item.data.request
        response := .ok
          { connector_refund_id := item.response.id
            refund_status := refundStatusEnumOfRefundStatus item.response.status }
        data := item.data.data }

end Globepay

open Globepay

/-- Claim C4: for both supported wallet kinds with a present description,
building the authorize request succeeds, copying amount, currency and
description verbatim into price, currency and description, with wallet
AliPay mapping to channel Alipay and WeChatPay to Wechat; in particular
amount 1000, currency CNY, description "order-1", wallet AliPay yields the
request with price 1000, description "order-1", currency CNY, channel
Alipay. -/
theorem authorize_request_supported_wallets_verbatim
    (amount : Int) (currency : Currency) (desc : String) :
    GlobepayPaymentsRequest.tryFrom
      { request := { payment_method_data := .Wallet .AliPay,
                     amount := amount, currency := currency }
        description := some desc }
      = .ok { price := amount, description := desc,
              currency := currency, channel := .Alipay }
    ∧ GlobepayPaymentsRequest.tryFrom
      { request := { payment_method_data := .Wallet .WeChatPay,
                     amount := amount, currency := currency }
        description := some desc }
      = .ok { price := amount, description := desc,
              currency := currency, channel := .Wechat }
    ∧ GlobepayPaymentsRequest.tryFrom
      { request := { payment_method_data := .Wallet .AliPay,
                     amount := 1000, currency := .CNY }
        description := some "order-1" }
      = .ok { price := 1000, description := "order-1",
              currency := .CNY, channel := .Alipay } :=
  ⟨rfl, rfl, rfl⟩

/-- Claim C6 counterexample: two distinct unsupported payment methods (the
Paypal wallet and a card) produce the identical error
`NotImplemented "Payment method"` with a fixed message that does not even
contain the offending method's name, so the error does not name the
offending payment method as the claim states. -/
theorem authorize_request_error_does_not_name_method :
    GlobepayPaymentsRequest.tryFrom
      { request := { payment_method_data := .Wallet .PaypalRedirect,
                     amount := 1, currency := .CNY }
        description := some "d" }
      = .error (.NotImplemented "Payment method")
    ∧ GlobepayPaymentsRequest.tryFrom
      { request := { payment_method_data := .Card,
                     amount := 1, currency := .CNY }
        description := some "d" }
      = .error (.NotImplemented "Payment method")
    ∧ PaymentMethodData.Wallet .PaypalRedirect ≠ PaymentMethodData.Card
    ∧ ¬ List.IsInfix "Paypal".data "Payment method".data :=
  ⟨rfl, rfl, by decide, by decide⟩

/-- Claim C6 (amended): for every authorize-attempt record whose payment
method is not a wallet payment, or whose wallet kind is neither of the two
supported kinds, building the outbound authorize request fails with the
not-implemented error carrying the fixed message "Payment method" (it does
not name the specific offending method). -/
theorem authorize_request_unsupported_method_fails
    (item : PaymentsAuthorizeRouterData)
    (h : (∀ w : WalletData, item.request.payment_method_data ≠ .Wallet w)
         ∨ (∃ w : WalletData, item.request.payment_method_data = .Wallet w
             ∧ w ≠ .AliPay ∧ w ≠ .WeChatPay)) :
    GlobepayPaymentsRequest.tryFrom item
      = .error (.NotImplemented "Payment method") := by
  obtain ⟨⟨pm, amt, cur⟩, desc⟩ := item
  cases pm with
  | Wallet w =>
    rcases h with h | ⟨w', hw', h1, h2⟩
    · exact absurd rfl (h w)
    · cases hw'
      cases w with
      | AliPay => exact absurd rfl h1
      | WeChatPay => exact absurd rfl h2
      | ApplePay => rfl
      | GooglePay => rfl
      | PaypalRedirect => rfl
      | SamsungPay => rfl
  | Card => rfl
  | PayLater => rfl
  | BankRedirect => rfl
  | Crypto => rfl
  | Upi => rfl

/-- Claim C6 witness: the amended theorem applied to a concrete record with
an unsupported wallet kind. -/
theorem authorize_request_unsupported_method_fails_witness :
    ((∀ w : WalletData,
        PaymentMethodData.Wallet .SamsungPay ≠ PaymentMethodData.Wallet w)
      ∨ (∃ w : WalletData,
          PaymentMethodData.Wallet .SamsungPay = PaymentMethodData.Wallet w
          ∧ w ≠ .AliPay ∧ w ≠ .WeChatPay))
    ∧ GlobepayPaymentsRequest.tryFrom
      { request := { payment_method_data := .Wallet .SamsungPay,
                     amount := 7, currency := .USD }
        description := none }
      = .error (.NotImplemented "Payment method") :=
  ⟨Or.inr ⟨.SamsungPay, rfl, by decide, by decide⟩,
   authorize_request_unsupported_method_fails
     { request := { payment_method_data := .Wallet .SamsungPay,
                    amount := 7, currency := .USD }
       description := none }
     (Or.inr ⟨.SamsungPay, rfl, by decide, by decide⟩)⟩

/-- Claim C7 counterexample: a record with an absent description whose
payment method is a card fails with `NotImplemented "Payment method"` (the
channel check runs first), not with the missing-required-field error the
claim requires for every record with an absent description. -/
theorem missing_description_can_fail_with_not_implemented :
    GlobepayPaymentsRequest.tryFrom
      { request := { payment_method_data := .Card,
                     amount := 5, currency := .USD }
        description := none }
      = .error (.NotImplemented "Payment method")
    ∧ ConnectorError.NotImplemented "Payment method"
        ≠ ConnectorError.MissingRequiredField "description" :=
  ⟨rfl, by decide⟩

/-- Claim C7 (amended): for every authorize-attempt record whose payment
method is one of the two supported wallet kinds and whose description is
absent, building the outbound authorize request fails with the
missing-required-field error naming the field "description". -/
theorem supported_wallet_missing_description_fails
    (amount : Int) (currency : Currency) :
    GlobepayPaymentsRequest.tryFrom
      { request := { payment_method_data := .Wallet .AliPay,
                     amount := amount, currency := currency }
        description := none }
      = .error (.MissingRequiredField "description")
    ∧ GlobepayPaymentsRequest.tryFrom
      { request := { payment_method_data := .Wallet .WeChatPay,
                     amount := amount, currency := currency }
        description := none }
      = .error (.MissingRequiredField "description") :=
  ⟨rfl, rfl⟩

/-- Claim C8: the credential extractor succeeds exactly on the BodyKey
variant, mapping the api key to the partner code and the secondary key to
the credential code, and fails with `FailedToObtainAuthType` on every other
variant. -/
theorem auth_type_extraction (a k : String) (auth : ConnectorAuthType)
    (h : ∀ a k : String, auth ≠ .BodyKey a k) :
    GlobepayAuthType.tryFrom (.BodyKey a k)
      = .ok { partner_code := ⟨a⟩, credential_code := ⟨k⟩ }
    ∧ GlobepayAuthType.tryFrom auth = .error .FailedToObtainAuthType := by
  refine ⟨rfl, ?_⟩
  cases auth with
  | BodyKey a k => exact absurd rfl (h a k)
  | HeaderKey a => rfl
  | SignatureKey a k s => rfl
  | MultiAuthKey a k s k2 => rfl
  | NoKey => rfl

/-- Claim C8 witness: the extraction theorem applied to the keys "pc" and
"cc" and the non-BodyKey variant `NoKey`. -/
theorem auth_type_extraction_witness :
    (∀ a k : String, ConnectorAuthType.NoKey ≠ .BodyKey a k)
    ∧ (GlobepayAuthType.tryFrom (.BodyKey "pc" "cc")
        = .ok { partner_code := ⟨"pc"⟩, credential_code := ⟨"cc"⟩ }
      ∧ GlobepayAuthType.tryFrom .NoKey = .error .FailedToObtainAuthType) :=
  ⟨fun _ _ h => ConnectorAuthType.noConfusion h,
   auth_type_extraction "pc" "cc" .NoKey
     (fun _ _ h => ConnectorAuthType.noConfusion h)⟩

/-- Claim C1 counterexample: parsing the authorize response with return code
`ORDER_NOT_EXIST` and return message "not found" at HTTP 200 yields an error
whose code and message are "OrderNotExist" — the variant identifier rendered
by the derived `strum::Display` — and not the canonical wire string
"ORDER_NOT_EXIST" the claim requires. -/
theorem error_code_is_variant_name_not_wire_string :
    paymentsResponseTryFrom (α := Unit)
      { response := { result_code := none, order_id := none, qrcode_img := none,
                      return_code := .OrderNotExist, return_msg := some "not found" }
        data := { status := .Pending,
                  response := .error
                    { code := "", message := "", reason := none, status_code := 0 }
                  data := () }
        http_code := 200 }
      = .ok { status := .Failure,
              response := .error
                { code := "OrderNotExist", message := "OrderNotExist",
                  reason := some "not found", status_code := 200 }
              data := () }
    ∧ "OrderNotExist" ≠ "ORDER_NOT_EXIST" :=
  ⟨rfl, by decide⟩

/-- Claim C1 (amended): for every authorize or sync response whose return
code is not `Success`, the parser returns status `Failure` and an error
response whose code and message both equal the return code's `Display`
rendering (the variant identifier, e.g. "OrderNotExist" for the wire code
`ORDER_NOT_EXIST`), whose reason is the response's return message, and whose
status code is the accompanying HTTP status code, regardless of which
optional fields are present. -/
theorem nonSuccess_return_code_normalized_error {α : Type}
    (d : RouterData α) (presp : GlobepayPaymentsResponse)
    (sresp : GlobepaySyncResponse) (http : Nat)
    (hp : presp.return_code ≠ .Success)
    (hs : sresp.return_code ≠ .Success) :
    paymentsResponseTryFrom { response := presp, data := d, http_code := http }
      = .ok { status := .Failure,
              response := .error
                { code := presp.return_code.displayString,
                  message := presp.return_code.displayString,
                  reason := presp.return_msg, status_code := http }
              data := d.data }
    ∧ syncResponseTryFrom { response := sresp, data := d, http_code := http }
      = .ok { status := .Failure,
              response := .error
                { code := sresp.return_code.displayString,
                  message := sresp.return_code.displayString,
                  reason := sresp.return_msg, status_code := http }
              data := d.data } := by
  constructor
  · unfold paymentsResponseTryFrom
    rw [if_neg hp]
  · unfold syncResponseTryFrom
    rw [if_neg hs]

/-- Claim C1 witness: the normalization theorem applied to concrete authorize
and sync responses carrying the non-success codes `SIGN_TIMEOUT` and
`ORDER_MISMATCH`. -/
theorem nonSuccess_return_code_normalized_error_witness :
    (GlobepayReturnCode.SignTimeout ≠ .Success)
    ∧ (GlobepayReturnCode.OrderMismatch ≠ .Success)
    ∧ (paymentsResponseTryFrom (α := Unit)
        { response := { result_code := some .Success, order_id := some "o1",
                        qrcode_img := some "http://q", return_code := .SignTimeout,
                        return_msg := some "late" }
          data := { status := .Pending,
                    response := .error
                      { code := "", message := "", reason := none, status_code := 0 }
                    data := () }
          http_code := 400 }
        = .ok { status := .Failure,
                response := .error
                  { code := GlobepayReturnCode.SignTimeout.displayString,
                    message := GlobepayReturnCode.SignTimeout.displayString,
                    reason := some "late", status_code := 400 }
                data := () }
      ∧ syncResponseTryFrom (α := Unit)
        { response := { result_code := some .Paying, order_id := some "o2",
                        return_code := .OrderMismatch, return_msg := none }
          data := { status := .Pending,
                    response := .error
                      { code := "", message := "", reason := none, status_code := 0 }
                    data := () }
          http_code := 400 }
        = .ok { status := .Failure,
                response := .error
                  { code := GlobepayReturnCode.OrderMismatch.displayString,
                    message := GlobepayReturnCode.OrderMismatch.displayString,
                    reason := none, status_code := 400 }
                data := () }) :=
  ⟨by decide, by decide,
   nonSuccess_return_code_normalized_error
     { status := .Pending,
       response := .error { code := "", message := "", reason := none, status_code := 0 }
       data := () }
     { result_code := some .Success, order_id := some "o1",
       qrcode_img := some "http://q", return_code := .SignTimeout,
       return_msg := some "late" }
     { result_code := some .Paying, order_id := some "o2",
       return_code := .OrderMismatch, return_msg := none }
     400 (by decide) (by decide)⟩

/-- Claim C2: an authorize response with return code `Success`, result code
`Success`, and both the order id and the QR image URL present parses to
attempt status `AuthenticationPending`, a transaction id equal to the
gateway order id, and connector metadata containing exactly the given QR
image URL unchanged; and the result code `Exists` maps to attempt status
`Failure`. -/
theorem authorize_success_roundtrip {α : Type} (d : RouterData α)
    (oid url : String) (m : Option String) (http : Nat) :
    paymentsResponseTryFrom
      { response := { result_code := some .Success, order_id := some oid,
                      qrcode_img := some url, return_code := .Success,
                      return_msg := m }
        data := d, http_code := http }
      = .ok { status := .AuthenticationPending,
              response := .ok (.TransactionResponse
                (.ConnectorTransactionId oid) none none
                (some (Json.obj [("image_data_url", Json.str url)])) none)
              data := d.data }
    ∧ attemptStatusOfPaymentStatus .Exists = .Failure :=
  ⟨rfl, rfl⟩

/-- Claim C3: when the return code is `Success`, a missing result code,
missing order id, or missing QR URL makes the authorize parser fail with
`ResponseHandlingFailed`, and a missing result code or missing order id
makes the sync parser fail with `ResponseHandlingFailed`. -/
theorem success_missing_required_fields_fail {α : Type}
    (d : RouterData α) (presp : GlobepayPaymentsResponse)
    (sresp : GlobepaySyncResponse) (http : Nat)
    (hp : presp.return_code = .Success)
    (hs : sresp.return_code = .Success)
    (hpm : presp.result_code = none ∨ presp.order_id = none
           ∨ presp.qrcode_img = none)
    (hsm : sresp.result_code = none ∨ sresp.order_id = none) :
    paymentsResponseTryFrom { response := presp, data := d, http_code := http }
      = .error .ResponseHandlingFailed
    ∧ syncResponseTryFrom { response := sresp, data := d, http_code := http }
      = .error .ResponseHandlingFailed := by
  constructor
  · obtain ⟨rc, oid, qr, ret, msg⟩ := presp
    simp only at hp hpm
    subst hp
    cases qr <;> cases rc <;> cases oid <;>
      first
      | rfl
      | simp_all [paymentsResponseTryFrom]
  · obtain ⟨rc, oid, ret, msg⟩ := sresp
    simp only at hs hsm
    subst hs
    cases rc <;> cases oid <;>
      first
      | rfl
      | simp_all [syncResponseTryFrom]

/-- Claim C3 witness: the missing-field theorem applied to an authorize
response missing its QR URL and a sync response missing its order id, both
with return code `Success`. -/
theorem success_missing_required_fields_fail_witness :
    (GlobepayReturnCode.Success = GlobepayReturnCode.Success)
    ∧ ((none : Option String) = none)
    ∧ (paymentsResponseTryFrom (α := Unit)
        { response := { result_code := some .Success, order_id := some "o1",
                        qrcode_img := none, return_code := .Success,
                        return_msg := none }
          data := { status := .Pending,
                    response := .error
                      { code := "", message := "", reason := none, status_code := 0 }
                    data := () }
          http_code := 200 }
        = .error .ResponseHandlingFailed
      ∧ syncResponseTryFrom (α := Unit)
        { response := { result_code := some .Paying, order_id := none,
                        return_code := .Success, return_msg := none }
          data := { status := .Pending,
                    response := .error
                      { code := "", message := "", reason := none, status_code := 0 }
                    data := () }
          http_code := 200 }
        = .error .ResponseHandlingFailed) :=
  ⟨rfl, rfl,
   success_missing_required_fields_fail
     { status := .Pending,
       response := .error { code := "", message := "", reason := none, status_code := 0 }
       data := () }
     { result_code := some .Success, order_id := some "o1", qrcode_img := none,
       return_code := .Success, return_msg := none }
     { result_code := some .Paying, order_id := none,
       return_code := .Success, return_msg := none }
     200 rfl rfl (Or.inr (Or.inr rfl)) (Or.inr rfl)⟩

/-- Claim C5: the sync status mapping is total over the five sync statuses
with `PaySuccess` mapping to `Charged`, `PayFail`, `CreateFail` and `Closed`
to `Failure`, and `Paying` to `AuthenticationPending`, and a successfully
parsed sync response carries no connector metadata. -/
theorem sync_status_mapping_and_no_metadata {α : Type} (d : RouterData α)
    (s : GlobepayPaymentPsyncStatus) (oid : String) (m : Option String)
    (http : Nat) :
    attemptStatusOfPsyncStatus .PaySuccess = .Charged
    ∧ attemptStatusOfPsyncStatus .PayFail = .Failure
    ∧ attemptStatusOfPsyncStatus .CreateFail = .Failure
    ∧ attemptStatusOfPsyncStatus .Closed = .Failure
    ∧ attemptStatusOfPsyncStatus .Paying = .AuthenticationPending
    ∧ syncResponseTryFrom
      { response := { result_code := some s, order_id := some oid,
                      return_code := .Success, return_msg := m }
        data := d, http_code := http }
      = .ok { status := attemptStatusOfPsyncStatus s,
              response := .ok (.TransactionResponse
                (.ConnectorTransactionId oid) none none none none)
              data := d.data } :=
  ⟨rfl, rfl, rfl, rfl, rfl, rfl⟩

/-- Claim C9: the refund request builder copies the refund amount verbatim
and never fails; both refund response parsers never fail, never inspect a
return code (the refund response shape carries none), and map the response
id to the connector refund id with the status mapping Succeeded to Success,
Failed to Failure, and Processing to Pending. -/
theorem refund_builder_and_parsers_total {α : Type}
    (item : RefundsRouterData α) (ritem : RefundsResponseRouterData α) :
    GlobepayRefundRequest.tryFrom item
      = .ok { amount := item.request.refund_amount }
    ∧ refundExecuteTryFrom ritem
      = .ok { request := ritem.data.request,
              response := .ok
                { connector_refund_id := ritem.response.id,
                  refund_status :=
                    refundStatusEnumOfRefundStatus ritem.response.status }
              data := ritem.data.data }
    ∧ refundRSyncTryFrom ritem
      = .ok { request := ritem.data.request,
              response := .ok
                { connector_refund_id := ritem.response.id,
                  refund_status :=
                    refundStatusEnumOfRefundStatus ritem.response.status }
              data := ritem.data.data }
    ∧ refundStatusEnumOfRefundStatus .Succeeded = .Success
    ∧ refundStatusEnumOfRefundStatus .Failed = .Failure
    ∧ refundStatusEnumOfRefundStatus .Processing = .Pending :=
  ⟨rfl, rfl, rfl, rfl, rfl, rfl⟩

/-- Claim C10: an authorize response with return code `Success`, result code
`Exists`, and both the order id and QR image URL present parses to attempt
status `Failure` while the response field is nevertheless `Ok` with a full
transaction response carrying the order id and the QR metadata, not a
normalized error. -/
theorem exists_result_failure_status_with_ok_response {α : Type}
    (d : RouterData α) (oid url : String) (m : Option String) (http : Nat) :
    paymentsResponseTryFrom
      { response := { result_code := some .Exists, order_id := some oid,
                      qrcode_img := some url, return_code := .Success,
                      return_msg := m }
        data := d, http_code := http }
      = .ok { status := .Failure,
              response := .ok (.TransactionResponse
                (.ConnectorTransactionId oid) none none
                (some (Json.obj [("image_data_url", Json.str url)])) none)
              data := d.data } :=
  rfl
